import Mathlib

/-!
Shallow embedding of the RAIS image server (cmu-lib/rais-image-server),
covering the IIIF feature-set model, the region validity predicate, the
JP2 dynamic-progression-level fallback, component-data narrowing, the
s3-images resolver (cache-path computation, prefix check, single-flight
download coordination) and the asset file lock.

Sources embedded:
  - src/src/openjpeg/filesystem_asset.go (iiif.FeatureSet and presets)
  - src/src/iiif/region_test.go (tests of Region.Valid)
  - src/openjpeg/jp2_image.go (SetDynamicProgressionLevel, JP2ComponentData)
  - src/src/plugins/s3-images/main.go (IDToPath, pullImage, downloading map)
  - src/unnamed/part_001 (buckets, makePath, asset, tryFLock, fUnlock)
  - src/src/openjpeg/asset.go (tryFLock, fUnlock)
-/

namespace Rais

/-! ### IIIF data model (rais/src/iiif)

Region, Size, Rotation, Quality and Format mirror the Go types used by
`FeatureSet.Supported`.  Go float64 fields are modelled as rationals; all
comparisons performed by the embedded code are equality tests against
exact small constants, where rationals agree with float64.
-/

inductive RegionType where
  | RTFull
  | RTSquare
  | RTPixel
  | RTPercent
deriving DecidableEq

structure Region where
  rType : RegionType
  X : ℚ
  Y : ℚ
  W : ℚ
  H : ℚ
deriving DecidableEq

inductive SizeType where
  | STFull
  | STMax
  | STScaleToWidth
  | STScaleToHeight
  | STScalePercent
  | STExact
  | STBestFit
deriving DecidableEq

structure Size where
  sType : SizeType
  W : ℤ
  H : ℤ
  Percent : ℚ
deriving DecidableEq

structure Rotation where
  Mirror : Bool
  Degrees : ℚ
deriving DecidableEq

-- Quality in Go is a string-backed type; the switch in SupportsQuality has a
-- default branch returning false, represented by QUnknown.
inductive Quality where
  | QColor
  | QGray
  | QBitonal
  | QDefault
  | QNative
  | QUnknown
deriving DecidableEq

-- Format in Go is a string-backed type; the switch in SupportsFormat has a
-- default branch returning false, represented by FmtUnknown.
inductive Format where
  | FmtJPG
  | FmtTIF
  | FmtPNG
  | FmtGIF
  | FmtJP2
  | FmtPDF
  | FmtWEBP
  | FmtUnknown
deriving DecidableEq

structure URL where
  region : Region
  size : Size
  rotation : Rotation
  quality : Quality
  format : Format

/-- FeatureSet from src/src/openjpeg/filesystem_asset.go (package iiif). -/
structure FeatureSet where
  RegionByPx : Bool
  RegionByPct : Bool
  SizeByWhListed : Bool
  SizeByW : Bool
  SizeByH : Bool
  SizeByPct : Bool
  SizeByForcedWh : Bool
  SizeByWh : Bool
  SizeAboveFull : Bool
  RotationBy90s : Bool
  RotationArbitrary : Bool
  Mirroring : Bool
  Default : Bool
  Color : Bool
  Gray : Bool
  Bitonal : Bool
  Jpg : Bool
  Png : Bool
  Tif : Bool
  Gif : Bool
  Jp2 : Bool
  Pdf : Bool
  Webp : Bool
  BaseUriRedirect : Bool
  Cors : Bool
  JsonldMediaType : Bool
  ProfileLinkHeader : Bool
  CanonicalLinkHeader : Bool

/-- FeaturesLevel0: fields set exactly as in the Go source; Go zero values
(false) written out explicitly. -/
def FeaturesLevel0 : FeatureSet :=
  { RegionByPx := false, RegionByPct := false
    SizeByWhListed := true, SizeByW := false, SizeByH := false
    SizeByPct := false, SizeByForcedWh := false, SizeByWh := false
    SizeAboveFull := false
    RotationBy90s := false, RotationArbitrary := false, Mirroring := false
    Default := true, Color := false, Gray := false, Bitonal := false
    Jpg := true, Png := false, Tif := false, Gif := false
    Jp2 := false, Pdf := false, Webp := false
    BaseUriRedirect := false, Cors := false, JsonldMediaType := false
    ProfileLinkHeader := false, CanonicalLinkHeader := false }

/-- FeaturesLevel1: fields set exactly as in the Go source. -/
def FeaturesLevel1 : FeatureSet :=
  { RegionByPx := true, RegionByPct := false
    SizeByWhListed := true, SizeByW := true, SizeByH := true
    SizeByPct := true, SizeByForcedWh := false, SizeByWh := false
    SizeAboveFull := false
    RotationBy90s := false, RotationArbitrary := false, Mirroring := false
    Default := true, Color := false, Gray := false, Bitonal := false
    Jpg := true, Png := false, Tif := false, Gif := false
    Jp2 := false, Pdf := false, Webp := false
    BaseUriRedirect := true, Cors := true, JsonldMediaType := true
    ProfileLinkHeader := false, CanonicalLinkHeader := false }

/-- FeaturesLevel2: fields set exactly as in the Go source. -/
def FeaturesLevel2 : FeatureSet :=
  { RegionByPx := true, RegionByPct := true
    SizeByWhListed := true, SizeByW := true, SizeByH := true
    SizeByPct := true, SizeByForcedWh := true, SizeByWh := true
    SizeAboveFull := false
    RotationBy90s := true, RotationArbitrary := false, Mirroring := false
    Default := true, Color := true, Gray := true, Bitonal := true
    Jpg := true, Png := true, Tif := false, Gif := false
    Jp2 := false, Pdf := false, Webp := false
    BaseUriRedirect := true, Cors := true, JsonldMediaType := true
    ProfileLinkHeader := false, CanonicalLinkHeader := false }

/-- SupportsRegion from the Go source: switch on the region type with a
default branch returning true (full and square regions). -/
def FeatureSet.SupportsRegion (fs : FeatureSet) (r : Region) : Bool :=
  match r.rType with
  | RegionType.RTPixel => fs.RegionByPx
  | RegionType.RTPercent => fs.RegionByPct
  | _ => true

/-- SupportsSize from the Go source: switch on the size type with a default
branch returning true (full and max sizes). -/
def FeatureSet.SupportsSize (fs : FeatureSet) (s : Size) : Bool :=
  match s.sType with
  | SizeType.STScaleToWidth => fs.SizeByW
  | SizeType.STScaleToHeight => fs.SizeByH
  | SizeType.STScalePercent => fs.SizeByPct
  | SizeType.STExact => fs.SizeByForcedWh
  | SizeType.STBestFit => fs.SizeByWh
  | _ => true

/-- SupportsRotation from the Go source: mirroring is checked first; then a
switch on Degrees with cases 0, then 90/180/270, then a default branch. -/
def FeatureSet.SupportsRotation (fs : FeatureSet) (r : Rotation) : Bool :=
  if r.Mirror && !fs.Mirroring then false
  else if r.Degrees = 0 then true
  else if r.Degrees = 90 ∨ r.Degrees = 180 ∨ r.Degrees = 270 then
    fs.RotationBy90s || fs.RotationArbitrary
  else fs.RotationArbitrary

/-- SupportsQuality from the Go source: QDefault and QNative share a case. -/
def FeatureSet.SupportsQuality (fs : FeatureSet) (q : Quality) : Bool :=
  match q with
  | Quality.QColor => fs.Color
  | Quality.QGray => fs.Gray
  | Quality.QBitonal => fs.Bitonal
  | Quality.QDefault => fs.Default
  | Quality.QNative => fs.Default
  | Quality.QUnknown => false

/-- SupportsFormat from the Go source: one boolean per known format and a
default branch returning false. -/
def FeatureSet.SupportsFormat (fs : FeatureSet) (f : Format) : Bool :=
  match f with
  | Format.FmtJPG => fs.Jpg
  | Format.FmtTIF => fs.Tif
  | Format.FmtPNG => fs.Png
  | Format.FmtGIF => fs.Gif
  | Format.FmtJP2 => fs.Jp2
  | Format.FmtPDF => fs.Pdf
  | Format.FmtWEBP => fs.Webp
  | Format.FmtUnknown => false

/-- Supported from the Go source: conjunction of the five family checks. -/
def FeatureSet.Supported (fs : FeatureSet) (u : URL) : Bool :=
  fs.SupportsRegion u.region &&
  fs.SupportsSize u.size &&
  fs.SupportsRotation u.rotation &&
  fs.SupportsQuality u.quality &&
  fs.SupportsFormat u.format

/-- Modelled from the spec: `Region.Valid` is not present under src/ (only its
tests, in src/src/iiif/region_test.go).  Per the spec invariant,
`Region.Valid()` holds iff the tag is Full or Square, or W and H are both
positive (pixel and percent coordinates). -/
def Region.Valid (r : Region) : Bool :=
  match r.rType with
  | RegionType.RTFull => true
  | RegionType.RTSquare => true
  | _ => decide (r.W > 0) && decide (r.H > 0)

/-! ### JP2 decoding (src/openjpeg/jp2_image.go)

`SetDynamicProgressionLevel` performs three fallible steps at a given
resolution level: initializing the codec, calling
`opj_set_decoded_resolution_factor`, and re-reading the header.  Failure of a
native call is a function of the environment; the embedding abstracts the
three steps as boolean failure functions of the level attempted.  Go errors
are modelled as `Option String` (`none` is the nil error / success).
-/

structure JP2Env where
  codecFail : Nat → Bool
  resFactorFail : Nat → Bool
  headerFail : Nat → Bool

/-- One attempt of the body of SetDynamicProgressionLevel at a fixed level:
initializeCodec, then opj_set_decoded_resolution_factor, then ReadHeader,
returning the first failure's error (or none on success). -/
def attemptLevel (e : JP2Env) (level : Nat) : Option String :=
  if e.codecFail level then some "failed to initialize codec"
  else if e.resFactorFail level then
    some "Error trying to set decoded resolution factor"
  else if e.headerFail level then some "failed to read the header"
  else none

/-- SetDynamicProgressionLevel from jp2_image.go: on any step failure the
onErr closure retries at level-1 when level is positive, and returns the
error when the failure happened at level 0. -/
def SetDynamicProgressionLevel (e : JP2Env) : Nat → Option String
  | 0 => attemptLevel e 0
  | l + 1 =>
    match attemptLevel e (l + 1) with
    | none => none
    | some _ => SetDynamicProgressionLevel e l

/-- One decoded JP2 component (opj_image_comp): width, height, and the raw
samples, which openjpeg exposes as 32-bit signed integers. -/
structure OpjImageComp where
  w : Nat
  h : Nat
  data : List ℤ

/-- JP2ComponentData from jp2_image.go: the C sample pointer is viewed as a
slice of w*h int32 values and each sample is converted with uint8(point),
i.e. truncated to its low byte.  Int.emod by 256 is exactly the unsigned
value of the low byte of a two's-complement int32. -/
def JP2ComponentData (comp : OpjImageComp) : List Nat :=
  comp.data.map fun point => (point % 256).toNat

/-! ### s3-images plugin: cache path computation

`buckets` (src/unnamed/part_001) hashes the key with hash/fnv's New32
(FNV-1, 32 bits: multiply by the prime, then xor the byte), divides by
10000 and extracts two base-100 digits; `makePath` joins the cache root,
the two shard names and the key.  `IDToPath` in
src/src/plugins/s3-images/main.go instead joins the cache root directly
with the key.  Paths are modelled as lists of path segments (filepath.Join
of distinct clean segments).  Key bytes are modelled via the character
codes, which agrees with Go's []byte(s) for ASCII keys.
-/

def strBytes (s : String) : List Nat :=
  s.data.map Char.toNat

/-- fnv32: hash/fnv New32 (FNV-1): offset basis 2166136261, prime 16777619;
per byte, multiply (mod 2^32) then xor. -/
def fnv32 (bytes : List Nat) : Nat :=
  bytes.foldl (fun h b => (h * 16777619 % 4294967296) ^^^ (b % 256)) 2166136261

/-- buckets from src/unnamed/part_001: val = Sum32 / 10000; the shards are
val % 100 and (val / 100) % 100, rendered in decimal. -/
def buckets (s3ID : String) : String × String :=
  let val := fnv32 (strBytes s3ID) / 10000
  (Nat.repr (val % 100), Nat.repr ((val / 100) % 100))

/-- makePath from src/unnamed/part_001, as path segments:
filepath.Join(s3cache, bucket1, bucket2, key). -/
def makePathSegs (s3cache key : String) : List String :=
  [s3cache, (buckets key).1, (buckets key).2, key]

/-- The cache path computed by IDToPath in src/src/plugins/s3-images/main.go,
as path segments: filepath.Join(s3cache, s3ID) with no shard directories. -/
def idToPathCacheSegs (s3cache s3ID : String) : List String :=
  [s3cache, s3ID]

/-! ### s3-images plugin: IDToPath sequential model

The outcome of one quiescent (no interleaved writers) call of IDToPath from
src/src/plugins/s3-images/main.go.  Go's pair return (path, err) maps to:
`ok path` for (path, nil); `err path msg` for (path, non-nil error);
`skipped` for ("", ErrSkipped).  `panicked` marks the evaluation of
ids[:3] on a string shorter than 3 bytes, which in Go raises a slice
bounds out of range panic.  In a quiescent state nothing clears the
downloading map, so a set flag makes the 10-second poll loop time out. -/
inductive IDResult where
  | panicked
  | skipped
  | ok (path : String)
  | err (path : String) (msg : String)
deriving DecidableEq

structure S3Env where
  s3cache : String
  fileExists : String → Bool
  downloading : String → Bool
  downloadOK : String → Bool

def joinPath (a b : String) : String := a ++ "/" ++ b

/-- IDToPath from src/src/plugins/s3-images/main.go, sequential model.  The
second component records whether pullImage (the downloader) was invoked. -/
def IDToPath (env : S3Env) (id : String) : IDResult × Bool :=
  if id.length < 3 then (IDResult.panicked, false)
  else if id.take 3 ≠ "s3:" then (IDResult.skipped, false)
  else
    let s3ID := id.drop 3
    let path := joinPath env.s3cache s3ID
    if env.downloading s3ID then
      (IDResult.err "" "timed out waiting for s3 download", false)
    else if env.fileExists path then (IDResult.ok path, false)
    else if env.downloadOK s3ID then (IDResult.ok path, true)
    else (IDResult.err path "download failed", true)

/-! ### s3-images plugin: interleaved download coordination

A small interleaving model of N goroutines concurrently running IDToPath
for the same uncached key.  Each atomic action corresponds to one
mutex-protected or single-syscall step of the Go code:

  - checkFlag: one iteration of `for isDownloading(s3ID)` (RLock-protected
    map read); if the flag is set the thread stays in the loop, else it
    proceeds.
  - checkFile: `fileutil.MustNotExist(path)`; if the file exists the call
    returns the cached path (done), else it enters pullImage.
  - setFlag: `setIsDownloading` (Lock-protected map write) at the top of
    pullImage.
  - dlRun: `s3download(s3ID, path)`, which writes the cache file; the
    download counter records each completed download.
  - clearFlag: the deferred `clearIsDownloading`.
-/

inductive TPc where
  | checkFlag
  | checkFile
  | setFlag
  | dlRun
  | clearFlag
  | done
deriving DecidableEq

structure Sys where
  flag : Bool
  file : Bool
  dlCount : Nat
  pcs : List TPc
deriving DecidableEq

/-- One atomic step of thread t, following the statement order of IDToPath
and pullImage in src/src/plugins/s3-images/main.go. -/
def s3step (s : Sys) (t : Nat) : Sys :=
  match s.pcs.getD t TPc.done with
  | TPc.checkFlag =>
    if s.flag then s else { s with pcs := s.pcs.set t TPc.checkFile }
  | TPc.checkFile =>
    if s.file then { s with pcs := s.pcs.set t TPc.done }
    else { s with pcs := s.pcs.set t TPc.setFlag }
  | TPc.setFlag => { s with flag := true, pcs := s.pcs.set t TPc.dlRun }
  | TPc.dlRun =>
    { s with file := true, dlCount := s.dlCount + 1, pcs := s.pcs.set t TPc.clearFlag }
  | TPc.clearFlag => { s with flag := false, pcs := s.pcs.set t TPc.done }
  | TPc.done => s

/-- Run a schedule (a list of thread indices, each performing one atomic
step) from a state. -/
def s3run (s : Sys) (sched : List Nat) : Sys :=
  sched.foldl s3step s

/-- Two goroutines, both entering IDToPath for the same uncached key: the
downloading flag is clear and the cache file absent. -/
def s3init : Sys :=
  { flag := false, file := false, dlCount := 0, pcs := [TPc.checkFlag, TPc.checkFlag] }

/-! ### Asset file lock (src/src/openjpeg/asset.go and src/unnamed/part_001)

The asset carries a writer mutex `fs` and a lock-reader mutex `lockreader`
guarding the boolean `inUse`.  In this sequential model the lock-reader
critical section is one atomic step; `fsLocked` records whether the writer
mutex is held. -/
structure AssetLock where
  inUse : Bool
  fsLocked : Bool
deriving DecidableEq

/-- tryFLock: under the lock-reader mutex, read inUse; if it is false,
acquire the writer mutex and set inUse.  Returns the negation of the inUse
value that was read. -/
def tryFLock (a : AssetLock) : Bool × AssetLock :=
  if a.inUse then (false, a)
  else (true, { inUse := true, fsLocked := true })

/-- fUnlock: under the lock-reader mutex, clear inUse and release the
writer mutex. -/
def fUnlock (_ : AssetLock) : AssetLock :=
  { inUse := false, fsLocked := false }

/-! ### Concrete instances used by witnesses and counterexamples -/

/-- Environment for the JP2 fallback: header read fails at levels 3 and
above (the codestream advertises fewer levels than requested). -/
def jp2envFew : JP2Env :=
  { codecFail := fun _ => false
    resFactorFail := fun _ => false
    headerFail := fun l => decide (3 ≤ l) }

/-- s3 environment: cache root "cache", only "cache/foo" cached, nothing
in flight, downloads succeed. -/
def s3envFoo : S3Env :=
  { s3cache := "cache"
    fileExists := fun p => p == "cache/foo"
    downloading := fun _ => false
    downloadOK := fun _ => true }

/-- A decoded 2x1 component whose samples exercise both positive overflow
and negative two's-complement truncation. -/
def comp21 : OpjImageComp := { w := 2, h := 1, data := [300, -1] }

/-- The URL full/full/0/default.jpg, supported by every preset. -/
def urlPlain : URL :=
  { region := { rType := RegionType.RTFull, X := 0, Y := 0, W := 0, H := 0 }
    size := { sType := SizeType.STFull, W := 0, H := 0, Percent := 0 }
    rotation := { Mirror := false, Degrees := 0 }
    quality := Quality.QDefault
    format := Format.FmtJPG }

/-! ### Claim theorems -/

/-- C2: the claim reads "at most one downloader for an identifier runs
concurrently; given N concurrent resolver calls for the same uncached s3
identifier, exactly one download runs to completion while the others wait".
The code violates this: isDownloading is checked before pullImage calls
setIsDownloading, so two goroutines can both observe a clear flag and a
missing file before either registers.  Under the schedule 0,1,0,1,0,1 both
threads reach the s3download call simultaneously, and completing the run
yields dlCount = 2: two downloads run to completion. -/
theorem s3_singleflight_race :
    (s3run s3init [0, 1, 0, 1, 0, 1]).pcs = [TPc.dlRun, TPc.dlRun] ∧
    (s3run s3init [0, 1, 0, 1, 0, 1, 0, 1, 0, 1]).dlCount = 2 ∧
    (s3run s3init [0, 1, 0, 1, 0, 1, 0, 1, 0, 1]).pcs = [TPc.done, TPc.done] := by
  exact ⟨by decide, by decide, by decide⟩

/-- C9: the claim says IDToPath is total over every ID string, returning a
path, a skipped status, or an error even for IDs shorter than 3 bytes.  The
code evaluates ids[:3] unconditionally, which panics on the 2-byte ID "ab"
(slice bounds out of range): the model returns the panic marker. -/
theorem idToPath_short_id_panics :
    IDToPath s3envFoo "ab" = (IDResult.panicked, false) ∧ "ab".length < 3 := by
  exact ⟨by decide, by decide⟩

/-- C8: tryFLock returns true iff inUse was false at the check; on true it
has set inUse and acquired the writer mutex; on false it has left the state
untouched; under the protocol invariant (inUse mirrors the writer mutex) it
only ever acquires a free writer mutex, hence never blocks on it; and
fUnlock clears inUse and releases the writer mutex. -/
theorem tryFLock_fUnlock_spec (a : AssetLock) :
    ((tryFLock a).1 = true ↔ a.inUse = false) ∧
    ((tryFLock a).1 = true → (tryFLock a).2 = { inUse := true, fsLocked := true }) ∧
    ((tryFLock a).1 = false → (tryFLock a).2 = a) ∧
    (a.inUse = a.fsLocked → (tryFLock a).1 = true → a.fsLocked = false) ∧
    fUnlock a = { inUse := false, fsLocked := false } := by
  obtain ⟨u, f⟩ := a
  cases u <;> cases f <;> exact ⟨by decide, by decide, by decide, by decide, by decide⟩

/-- C8 witness: the theorem applied to the quiescent lock state. -/
theorem tryFLock_fUnlock_witness :
    (tryFLock { inUse := false, fsLocked := false }).2 =
      { inUse := true, fsLocked := true } :=
  (tryFLock_fUnlock_spec { inUse := false, fsLocked := false }).2.1 (by decide)

/-- Helper for C6: getD commutes with the low-byte map because the default
value 0 is a fixed point of low-byte truncation. -/
lemma getD_map_lowByte (l : List ℤ) (i : Nat) :
    (l.map (fun p => (p % 256).toNat)).getD i 0 = ((l.getD i 0) % 256).toNat := by
  induction l generalizing i with
  | nil => simp [List.getD]
  | cons a t ih =>
    cases i with
    | zero => simp [List.getD]
    | succ j => simpa [List.getD] using ih j

/-- C6: for a component of width w and height h whose raw data holds the
w*h 32-bit samples, JP2ComponentData returns exactly w*h bytes, and the
i-th byte is the i-th sample reduced modulo 256 (low-byte truncation). -/
theorem jp2ComponentData_low_byte (comp : OpjImageComp)
    (h : comp.data.length = comp.w * comp.h) :
    (JP2ComponentData comp).length = comp.w * comp.h ∧
    ∀ i : Nat, (JP2ComponentData comp).getD i 0 = ((comp.data.getD i 0) % 256).toNat := by
  constructor
  · simpa [JP2ComponentData] using h
  · intro i
    exact getD_map_lowByte comp.data i

/-- C6 witness: the theorem applied to the concrete 2x1 component; sample
300 narrows to 44 and sample -1 narrows to 255. -/
theorem jp2ComponentData_low_byte_witness :
    (JP2ComponentData comp21).length = comp21.w * comp21.h ∧
    (JP2ComponentData comp21).getD 1 0 = ((comp21.data.getD 1 0) % 256).toNat ∧
    JP2ComponentData comp21 = [44, 255] :=
  ⟨(jp2ComponentData_low_byte comp21 rfl).1,
   (jp2ComponentData_low_byte comp21 rfl).2 1, by decide⟩

/-- C4 counterexample: the claim says the remote-fetching resolver's cache
path places the downloaded file under two 100-bucket shard directories
computed from a hash of the key.  IDToPath in the s3-images plugin computes
filepath.Join(s3cache, s3ID): for the key "x" its cache path has no shard
directories at all. -/
theorem resolver_cache_path_not_sharded :
    ¬ ∃ a b : Nat, a < 100 ∧ b < 100 ∧
      idToPathCacheSegs "cache" "x" = ["cache", Nat.repr a, Nat.repr b, "x"] := by
  rintro ⟨a, b, -, -, h⟩
  have hlen := congrArg List.length h
  simp [idToPathCacheSegs] at hlen

/-- C4 amended: the two-level 100-bucket fan-out holds of the asset
manager's makePath (src/unnamed/part_001): the path is the cache root, two
shard directories whose names are decimal integers below 100 computed from
the FNV-1 hash of the key alone, then the key. -/
theorem makePath_two_shard_fanout (s3cache key : String) :
    makePathSegs s3cache key =
      [s3cache, Nat.repr (fnv32 (strBytes key) / 10000 % 100),
       Nat.repr (fnv32 (strBytes key) / 10000 / 100 % 100), key] ∧
    fnv32 (strBytes key) / 10000 % 100 < 100 ∧
    fnv32 (strBytes key) / 10000 / 100 % 100 < 100 :=
  ⟨rfl, Nat.mod_lt _ (by norm_num), Nat.mod_lt _ (by norm_num)⟩

/-- C5: for an ID with the s3: scheme prefix whose computed cache path
exists (and no stale in-flight flag for its key), IDToPath returns the
cache path with a nil error and never invokes the downloader. -/
theorem idToPath_cached_no_download (env : S3Env) (id : String)
    (hlen : 3 ≤ id.length) (hpre : id.take 3 = "s3:")
    (hdl : env.downloading (id.drop 3) = false)
    (hex : env.fileExists (joinPath env.s3cache (id.drop 3)) = true) :
    IDToPath env id = (IDResult.ok (joinPath env.s3cache (id.drop 3)), false) := by
  have h1 : ¬ (id.length < 3) := by omega
  have h2 : ¬ (id.take 3 ≠ "s3:") := by simp [hpre]
  simp [IDToPath, h1, h2, hdl, hex]

/-- C5 witness: the theorem applied to the ID "s3:foo" with "cache/foo"
already on disk. -/
theorem idToPath_cached_no_download_witness :
    IDToPath s3envFoo "s3:foo" =
      (IDResult.ok (joinPath s3envFoo.s3cache ("s3:foo".drop 3)), false) :=
  idToPath_cached_no_download s3envFoo "s3:foo" (by decide) (by decide)
    (by decide) (by decide)

/-- C7: Region.Valid holds iff the region type is Full or Square, or both W
and H are positive; in particular a pixel or percent region with a zero
width or height is invalid. -/
theorem region_valid_spec (r : Region) :
    (r.Valid = true ↔
      (r.rType = RegionType.RTFull ∨ r.rType = RegionType.RTSquare ∨
        (r.W > 0 ∧ r.H > 0))) ∧
    ((r.rType = RegionType.RTPixel ∨ r.rType = RegionType.RTPercent) →
      (r.W = 0 ∨ r.H = 0) → r.Valid = false) := by
  obtain ⟨t, x, y, w, h⟩ := r
  cases t with
  | RTFull => exact ⟨by simp [Region.Valid], by rintro (hcon | hcon) <;> simp at hcon⟩
  | RTSquare => exact ⟨by simp [Region.Valid], by rintro (hcon | hcon) <;> simp at hcon⟩
  | RTPixel =>
    refine ⟨by simp [Region.Valid], ?_⟩
    rintro - (h0 | h0) <;> simp at h0 <;> simp [Region.Valid, h0]
  | RTPercent =>
    refine ⟨by simp [Region.Valid], ?_⟩
    rintro - (h0 | h0) <;> simp at h0 <;> simp [Region.Valid, h0]

/-- C7 witness: the theorem applied to the concrete regions of
TestInvalidRegion and TestRegionTypePixels ("10,10,0,70" is invalid,
"10,10,40,70" is valid). -/
theorem region_valid_witness :
    Region.Valid { rType := RegionType.RTPixel, X := 10, Y := 10, W := 0, H := 70 } = false ∧
    Region.Valid { rType := RegionType.RTPixel, X := 10, Y := 10, W := 40, H := 70 } = true :=
  ⟨(region_valid_spec _).2 (Or.inl rfl) (Or.inl rfl),
   (region_valid_spec _).1.mpr (Or.inr (Or.inr ⟨by norm_num, by norm_num⟩))⟩

/-- Unfolding for the recursive case of SetDynamicProgressionLevel. -/
lemma setDynamicProgressionLevel_succ (e : JP2Env) (n : Nat) :
    SetDynamicProgressionLevel e (n + 1) =
      match attemptLevel e (n + 1) with
      | none => none
      | some _ => SetDynamicProgressionLevel e n := rfl

/-- C1: for every requested level l, SetDynamicProgressionLevel succeeds
iff some level k at most l succeeds (codec configuration, resolution factor
and header read all pass); whenever the attempt at a positive level fails
it retries at the next lower level; and any returned error is the error of
the attempt at level 0. -/
theorem setDynamicProgressionLevel_fallback (e : JP2Env) (l : Nat) :
    (SetDynamicProgressionLevel e l = none ↔
      ∃ k, k ≤ l ∧ attemptLevel e k = none) ∧
    (∀ l', l = l' + 1 → attemptLevel e l ≠ none →
      SetDynamicProgressionLevel e l = SetDynamicProgressionLevel e l') ∧
    (∀ msg, SetDynamicProgressionLevel e l = some msg →
      attemptLevel e 0 = some msg) := by
  induction l with
  | zero =>
    refine ⟨⟨fun h => ⟨0, Nat.le_refl 0, h⟩, ?_⟩, fun l' h => absurd h (by omega), fun msg h => h⟩
    rintro ⟨k, hk, hA⟩
    have hk0 : k = 0 := Nat.le_zero.mp hk
    subst hk0
    exact hA
  | succ n ih =>
    rcases hA : attemptLevel e (n + 1) with _ | msg0
    · have hok : SetDynamicProgressionLevel e (n + 1) = none := by
        rw [setDynamicProgressionLevel_succ, hA]
      refine ⟨⟨fun _ => ⟨n + 1, Nat.le_refl _, hA⟩, fun _ => hok⟩, ?_, ?_⟩
      · intro l' hl hne
        exact absurd rfl hne
      · intro msg h
        rw [hok] at h
        cases h
    · have hstep : SetDynamicProgressionLevel e (n + 1) = SetDynamicProgressionLevel e n := by
        rw [setDynamicProgressionLevel_succ, hA]
      refine ⟨?_, ?_, ?_⟩
      · rw [hstep, ih.1]
        constructor
        · rintro ⟨k, hk, h⟩
          exact ⟨k, Nat.le_succ_of_le hk, h⟩
        · rintro ⟨k, hk, h⟩
          rcases Nat.lt_or_ge k (n + 1) with hlt | hge
          · exact ⟨k, Nat.lt_succ_iff.mp hlt, h⟩
          · have hkn : k = n + 1 := Nat.le_antisymm hk hge
            subst hkn
            rw [h] at hA
            cases hA
      · intro l' hl _
        have hln : l' = n := by omega
        subst hln
        exact hstep
      · intro msg h
        rw [hstep] at h
        exact ih.2.2 msg h

/-- C1 witness: with header reads failing at levels 3 and above, the
request for level 3 retries at level 2 and succeeds there. -/
theorem setDynamicProgressionLevel_fallback_witness :
    SetDynamicProgressionLevel jp2envFew 3 = SetDynamicProgressionLevel jp2envFew 2 ∧
    SetDynamicProgressionLevel jp2envFew 3 = none :=
  ⟨(setDynamicProgressionLevel_fallback jp2envFew 3).2.1 2 rfl (by decide),
   (setDynamicProgressionLevel_fallback jp2envFew 3).1.mpr ⟨2, by decide, by decide⟩⟩

/-- C3: SupportsRotation holds iff mirroring is allowed when requested, and
the degrees are 0, or one of 90/180/270 with quarter-turn or arbitrary
rotation enabled, or any other value with arbitrary rotation enabled. -/
theorem supportsRotation_spec (fs : FeatureSet) (r : Rotation) :
    fs.SupportsRotation r = true ↔
      ((r.Mirror = true → fs.Mirroring = true) ∧
       (r.Degrees = 0 ∨
        ((r.Degrees = 90 ∨ r.Degrees = 180 ∨ r.Degrees = 270) ∧
          (fs.RotationBy90s = true ∨ fs.RotationArbitrary = true)) ∨
        (¬(r.Degrees = 0 ∨ r.Degrees = 90 ∨ r.Degrees = 180 ∨ r.Degrees = 270) ∧
          fs.RotationArbitrary = true))) := by
  obtain ⟨m, d⟩ := r
  by_cases h0 : d = 0 <;> by_cases h90 : d = 90 ∨ d = 180 ∨ d = 270 <;>
    cases m <;> cases hM : fs.Mirroring <;>
      simp [FeatureSet.SupportsRotation, h0, h90, hM]

/-- C3 witness: the level-2 preset supports an unmirrored 90-degree
rotation via RotationBy90s. -/
theorem supportsRotation_spec_witness :
    FeatureSet.SupportsRotation FeaturesLevel2 { Mirror := false, Degrees := 90 } = true :=
  (supportsRotation_spec FeaturesLevel2 { Mirror := false, Degrees := 90 }).mpr
    ⟨by simp, Or.inr (Or.inl ⟨Or.inl rfl, Or.inl rfl⟩)⟩

/-- Helper for C10: region support is monotone from the level-0 to the
level-1 preset. -/
lemma supportsRegion_level01 (r : Region) :
    FeatureSet.SupportsRegion FeaturesLevel0 r = true →
    FeatureSet.SupportsRegion FeaturesLevel1 r = true := by
  cases ht : r.rType <;> simp [FeatureSet.SupportsRegion, ht, FeaturesLevel0, FeaturesLevel1]

/-- Helper for C10: region support is monotone from the level-1 to the
level-2 preset. -/
lemma supportsRegion_level12 (r : Region) :
    FeatureSet.SupportsRegion FeaturesLevel1 r = true →
    FeatureSet.SupportsRegion FeaturesLevel2 r = true := by
  cases ht : r.rType <;> simp [FeatureSet.SupportsRegion, ht, FeaturesLevel1, FeaturesLevel2]

/-- Helper for C10: size support is monotone from level 0 to level 1. -/
lemma supportsSize_level01 (s : Size) :
    FeatureSet.SupportsSize FeaturesLevel0 s = true →
    FeatureSet.SupportsSize FeaturesLevel1 s = true := by
  cases ht : s.sType <;> simp [FeatureSet.SupportsSize, ht, FeaturesLevel0, FeaturesLevel1]

/-- Helper for C10: size support is monotone from level 1 to level 2. -/
lemma supportsSize_level12 (s : Size) :
    FeatureSet.SupportsSize FeaturesLevel1 s = true →
    FeatureSet.SupportsSize FeaturesLevel2 s = true := by
  cases ht : s.sType <;> simp [FeatureSet.SupportsSize, ht, FeaturesLevel1, FeaturesLevel2]

/-- Helper for C10: the level-0 and level-1 presets have identical rotation
features, so rotation support transfers definitionally. -/
lemma supportsRotation_level01 (r : Rotation) :
    FeatureSet.SupportsRotation FeaturesLevel0 r = true →
    FeatureSet.SupportsRotation FeaturesLevel1 r = true :=
  fun h => h

/-- Helper for C10: rotation support is monotone from level 1 to level 2. -/
lemma supportsRotation_level12 (r : Rotation) :
    FeatureSet.SupportsRotation FeaturesLevel1 r = true →
    FeatureSet.SupportsRotation FeaturesLevel2 r = true := by
  intro h
  by_cases hm : r.Mirror
  · simp [FeatureSet.SupportsRotation, hm, FeaturesLevel1] at h
  · by_cases h0 : r.Degrees = 0
    · simp [FeatureSet.SupportsRotation, hm, h0, FeaturesLevel2]
    · by_cases h90 : r.Degrees = 90 ∨ r.Degrees = 180 ∨ r.Degrees = 270 <;>
        simp [FeatureSet.SupportsRotation, hm, h0, h90, FeaturesLevel1] at h

/-- Helper for C10: level 0 and level 1 have identical quality features. -/
lemma supportsQuality_level01 (q : Quality) :
    FeatureSet.SupportsQuality FeaturesLevel0 q = true →
    FeatureSet.SupportsQuality FeaturesLevel1 q = true :=
  fun h => h

/-- Helper for C10: quality support is monotone from level 1 to level 2. -/
lemma supportsQuality_level12 (q : Quality) :
    FeatureSet.SupportsQuality FeaturesLevel1 q = true →
    FeatureSet.SupportsQuality FeaturesLevel2 q = true := by
  cases q <;> simp [FeatureSet.SupportsQuality, FeaturesLevel1, FeaturesLevel2]

/-- Helper for C10: level 0 and level 1 have identical format features. -/
lemma supportsFormat_level01 (f : Format) :
    FeatureSet.SupportsFormat FeaturesLevel0 f = true →
    FeatureSet.SupportsFormat FeaturesLevel1 f = true :=
  fun h => h

/-- Helper for C10: format support is monotone from level 1 to level 2. -/
lemma supportsFormat_level12 (f : Format) :
    FeatureSet.SupportsFormat FeaturesLevel1 f = true →
    FeatureSet.SupportsFormat FeaturesLevel2 f = true := by
  cases f <;> simp [FeatureSet.SupportsFormat, FeaturesLevel1, FeaturesLevel2]

/-- C10: the three canonical presets are monotone under the feature gate:
any URL supported at level 0 is supported at level 1, and any URL supported
at level 1 is supported at level 2. -/
theorem featureLevels_supported_monotone (u : URL) :
    (FeatureSet.Supported FeaturesLevel0 u = true →
      FeatureSet.Supported FeaturesLevel1 u = true) ∧
    (FeatureSet.Supported FeaturesLevel1 u = true →
      FeatureSet.Supported FeaturesLevel2 u = true) := by
  constructor <;> intro h <;>
    simp only [FeatureSet.Supported, Bool.and_eq_true] at h ⊢ <;>
    obtain ⟨⟨⟨⟨hr, hs⟩, hrot⟩, hq⟩, hf⟩ := h
  · exact ⟨⟨⟨⟨supportsRegion_level01 _ hr, supportsSize_level01 _ hs⟩,
      supportsRotation_level01 _ hrot⟩, supportsQuality_level01 _ hq⟩,
      supportsFormat_level01 _ hf⟩
  · exact ⟨⟨⟨⟨supportsRegion_level12 _ hr, supportsSize_level12 _ hs⟩,
      supportsRotation_level12 _ hrot⟩, supportsQuality_level12 _ hq⟩,
      supportsFormat_level12 _ hf⟩

/-- C10 witness: the theorem applied to full/full/0/default.jpg, which the
level-0 preset supports. -/
theorem featureLevels_supported_monotone_witness :
    FeatureSet.Supported FeaturesLevel1 urlPlain = true ∧
    FeatureSet.Supported FeaturesLevel2 urlPlain = true :=
  ⟨(featureLevels_supported_monotone urlPlain).1 (by decide),
   (featureLevels_supported_monotone urlPlain).2
     ((featureLevels_supported_monotone urlPlain).1 (by decide))⟩

end Rais
